import Mathlib

/-!
Verification of the `JsonActionClient` Python module
(`src/json_action_client/client.py`) against its specification.

The embedding is shallow: JSON values (Python dicts produced by
`json.loads` / passed to `requests.Session.post`) become the inductive
type `JValue`; the mutable client object becomes the record
`JsonActionClient` threaded explicitly through the operations; each
exception class of the module becomes a constructor of `Err`; the
external HTTP collaborator (`requests`) is abstracted as a function
from the posted request to an `HttpOutcome`, and the `try`/`except`
dispatch of `post_json` is reproduced over that outcome type following
the exception hierarchy of the `requests` library.  Side effects
(requests actually posted, log entries emitted) are collected in an
explicit `Effects` value.
-/

/-- A JSON value as manipulated by the Python module: `None`, booleans,
integers, strings and objects (Python dicts, insertion ordered).
Floating point numbers never occur in the requests or responses the
module builds and are not modelled. -/
inductive JValue where
  | null : JValue
  | bool : Bool → JValue
  | int : Int → JValue
  | str : String → JValue
  | obj : List (String × JValue) → JValue
deriving Repr

/-- Key lookup in the field list of a JSON object (Python dict lookup;
parsed JSON objects never carry duplicate keys). -/
def lookupField : List (String × JValue) → String → Option JValue
  | [], _ => none
  | (k', v) :: rest, k => if k' = k then some v else lookupField rest k

/-- `d.get(k)` returning `some v` when the key is present: also models the
Python subscript `d[k]`, which raises `KeyError` exactly when this is
`none`. -/
def dget? : JValue → String → Option JValue
  | .obj fields, k => lookupField fields k
  | _, _ => none

/-- Python `d.get(k, default)`. -/
def dgetD (j : JValue) (k : String) (default : JValue) : JValue :=
  (dget? j k).getD default

/-- Python `d.get(k)`: absent keys yield `None` (here `.null`). -/
def dget (j : JValue) (k : String) : JValue :=
  dgetD j k .null

/-- Python `k in d` for a dict. -/
def hasKey (j : JValue) (k : String) : Bool :=
  (dget? j k).isSome

/-- Python truthiness of a value: `None`, `False`, `0`, `""` and the empty
dict are falsy, everything else is truthy.  This is the test performed by
`if not self.auth_token` in `__enter__` and `if self.auth_token` in
`__exit__`, and by `if username and password` in `login`. -/
def truthy : JValue → Bool
  | .null => false
  | .bool b => b
  | .int n => n != 0
  | .str s => s != ""
  | .obj fields => !fields.isEmpty

/-- Python `==` between a JSON value and an integer literal, as in
`response_json['errorCode'] == 0`.  In Python `bool` is a subtype of
`int`, so `False == 0` and `True == 1` are true; `None`, strings and
dicts never compare equal to an integer. -/
def pyEqInt : JValue → Int → Bool
  | .int n, m => n == m
  | .bool b, m => (if b then (1 : Int) else 0) == m
  | _, _ => false

/-- Python `repr` of a value, used by `str` on dicts.  String escaping
corner cases inside `repr` are not exercised by the module's messages and
are rendered naively. -/
def pyRepr : JValue → String
  | .null => "None"
  | .bool true => "True"
  | .bool false => "False"
  | .int n => toString n
  | .str s => "'" ++ s ++ "'"
  | .obj fields => "\x7b" ++ pyReprFields fields ++ "\x7d"
where
  /-- `repr` of the comma-separated items of a dict. -/
  pyReprFields : List (String × JValue) → String
  | [] => ""
  | [(k, v)] => "'" ++ k ++ "': " ++ pyRepr v
  | (k, v) :: rest => "'" ++ k ++ "': " ++ pyRepr v ++ ", " ++ pyReprFields rest

/-- Python `str` of a value, as interpolated by an f-string: identity on
strings, `None`/`True`/`False` for the singletons, decimal for integers,
`repr`-style rendering for dicts. -/
def pyStr : JValue → String
  | .str s => s
  | v => pyRepr v

/-- Escaping applied by `json.dumps` to string contents; restricted to
the backslash, the double quote and the common control characters. -/
def jsonEscape (s : String) : String :=
  String.join (s.toList.map fun c =>
    if c = '\\' then "\\\\"
    else if c = '"' then "\\\""
    else if c = '\n' then "\\n"
    else if c = '\t' then "\\t"
    else if c = '\r' then "\\r"
    else String.singleton c)

/-- Python `json.dumps` with default separators, used when `post_json`
logs the outbound request body after a request failure. -/
def dumps : JValue → String
  | .null => "null"
  | .bool true => "true"
  | .bool false => "false"
  | .int n => toString n
  | .str s => "\"" ++ jsonEscape s ++ "\""
  | .obj fields => "\x7b" ++ dumpsFields fields ++ "\x7d"
where
  /-- `json.dumps` of the comma-separated items of an object. -/
  dumpsFields : List (String × JValue) → String
  | [] => ""
  | [(k, v)] => "\"" ++ jsonEscape k ++ "\": " ++ dumps v
  | (k, v) :: rest => "\"" ++ jsonEscape k ++ "\": " ++ dumps v ++ ", " ++ dumpsFields rest

/-- Severity levels of the `logging` calls made by the module. -/
inductive LogLevel where
  | debug : LogLevel
  | warning : LogLevel
  | error : LogLevel
deriving Repr, DecidableEq

/-- One emitted log record: severity and message. -/
abbrev LogEntry := LogLevel × String

/-- The observable side effects of an operation: the request bodies
posted to the endpoint (in order) and the log records emitted. -/
structure Effects where
  sent : List JValue
  logs : List LogEntry
deriving Repr

/-- The exceptions the module can raise.  The first three constructors
are the module's own hierarchy rooted at `JsonActionError`
(`JsonActionConnectionError` and `JsonActionApiError` derive from it);
`runtimeError` is the built-in `RuntimeError` raised by `__enter__` and
`keyError` the built-in `KeyError` raised by a dict subscript — neither
of those derives from `JsonActionError`.  `cause` fields model the
`__cause__` attached by `raise ... from ...`. -/
inductive Err where
  | jsonActionError : String → String → Err
  | jsonActionConnectionError : String → String → String → Err
  | jsonActionApiError : String → JValue → JValue → JValue → JValue → Err
  | runtimeError : String → Err
  | keyError : String → Err
deriving Repr

/-- Whether the exception is an instance of the module's base class
`JsonActionError` (the spec's `ActionError` kind). -/
def Err.isJsonActionError : Err → Bool
  | .jsonActionError _ _ => true
  | .jsonActionConnectionError _ _ _ => true
  | .jsonActionApiError _ _ _ _ _ => true
  | .runtimeError _ => false
  | .keyError _ => false

/-- The message stored on the exception: the module's classes all pass it
to `Exception.__init__`, so `str(exc)` returns it; for `KeyError`,
`str(exc)` is the `repr` of the missing key. -/
def errStr : Err → String
  | .jsonActionError message _ => message
  | .jsonActionConnectionError message _ _ => message
  | .jsonActionApiError message _ _ _ _ => message
  | .runtimeError message => message
  | .keyError key => "'" ++ key ++ "'"

/-- Outcome of `self._session.post(self.endpoint, json=data, timeout=10)`
followed by body parsing, as raised/returned by the `requests`
collaborator.  Constructors follow the exception hierarchy of
`requests.exceptions`: `SSLError` and `ConnectTimeout` are *subclasses of
`ConnectionError`* there (`class SSLError(ConnectionError)` and
`class ConnectTimeout(ConnectionError, Timeout)` in
`requests/exceptions.py`), while `ReadTimeout` derives from `Timeout`
only; each carries `str(exception)`.  `response` is a completed HTTP
exchange with its status code, reason phrase and JSON-parsed body. -/
inductive HttpOutcome where
  | connectionError : String → HttpOutcome
  | sslError : String → HttpOutcome
  | connectTimeout : String → HttpOutcome
  | readTimeout : String → HttpOutcome
  | otherRequestError : String → HttpOutcome
  | response : Nat → String → JValue → HttpOutcome

/-- `str` of the `requests.exceptions.HTTPError` raised by
`Response.raise_for_status()`, which raises exactly for status codes in
`[400, 600)`. -/
def http_error_message (status : Nat) (reason : String) (url : String) : String :=
  if status < 500 then
    toString status ++ " Client Error: " ++ reason ++ " for url: " ++ url
  else
    toString status ++ " Server Error: " ++ reason ++ " for url: " ++ url

/-- The transport collaborator: what the persistent HTTP session does
with a posted request body. -/
abbrev Transport := JValue → HttpOutcome

/-- The client's state: endpoint URL (set once at construction),
the nullable auth token (`None` until `login` stores one) and the unused
description label.  The TLS material held by the `requests` session is
delegated to the transport collaborator and carries no further state
relevant to the operations. -/
structure JsonActionClient where
  endpoint : String
  auth_token : JValue
  description : JValue
deriving Repr

/-- `JsonActionClient.__init__`: stores the endpoint and description and
leaves `auth_token = None`. -/
def mkClient (endpoint : String) (description : JValue) : JsonActionClient :=
  { endpoint := endpoint, auth_token := .null, description := description }

/-- Result of `post_json`: the returned response or raised exception,
plus the observable effects. -/
structure PostResult where
  result : Except Err JValue
  effects : Effects
deriving Repr

/-- The f-string message of `JsonActionApiError` raised by `post_json`:
`f"JSON Action error for '\x7baction\x7d', errorCode: ..."`. -/
def api_error_message (action : JValue) (body : JValue) : String :=
  "JSON Action error for '" ++ pyStr action ++ "', errorCode: " ++
    pyStr (dget body "errorCode") ++ ", errorMessage: " ++ pyStr (dget body "errorMessage")

/-- The `except requests.exceptions.ConnectionError` arm of `post_json`:
log the fatal connection failure at error severity and raise
`JsonActionConnectionError(f"Server connection failed: ...", endpoint)`
chained `from` the cause. -/
def connection_failure_result (c : JsonActionClient) (data : JValue)
    (debugLog : LogEntry) (cause : String) : PostResult :=
  { result := .error (.jsonActionConnectionError
      ("Server connection failed: " ++ cause) c.endpoint cause)
    effects :=
      { sent := [data]
        logs := [debugLog,
          (LogLevel.error, "FATAL CONNECTION FAILURE: Server at " ++ c.endpoint ++
            " is unreachable. Details: " ++ cause)] } }

/-- The `except requests.exceptions.RequestException` arm of `post_json`:
log the error and the outbound request body at error severity and raise
the base `JsonActionError(f"Request failed: ...")` chained `from` the
cause. -/
def request_failure_result (_c : JsonActionClient) (data : JValue)
    (debugLog : LogEntry) (cause : String) : PostResult :=
  { result := .error (.jsonActionError ("Request failed: " ++ cause) cause)
    effects :=
      { sent := [data]
        logs := [debugLog,
          (LogLevel.error, "Unexpected request error!: " ++ cause),
          (LogLevel.error, "Request: " ++ dumps data)] } }

/-- The body of `post_json` after the session has produced an outcome for
the posted data: `raise_for_status` turns a 4xx/5xx status into an
`HTTPError` caught by the `RequestException` arm; `SSLError` and
`ConnectTimeout`, being subclasses of `requests.exceptions.ConnectionError`,
are caught by the `ConnectionError` arm; on a usable response the
`errorCode` test decides between returning the parsed body and raising
`JsonActionApiError`. -/
def post_json_handle (c : JsonActionClient) (data : JValue) (outcome : HttpOutcome) :
    PostResult :=
  let action := dgetD data "action" (.str "unknown")
  let debugLog : LogEntry :=
    (LogLevel.debug, "Posting '" ++ pyStr action ++ "' to to " ++ c.endpoint ++ "...")
  match outcome with
  | .connectionError cause => connection_failure_result c data debugLog cause
  | .sslError cause => connection_failure_result c data debugLog cause
  | .connectTimeout cause => connection_failure_result c data debugLog cause
  | .readTimeout cause => request_failure_result c data debugLog cause
  | .otherRequestError cause => request_failure_result c data debugLog cause
  | .response status reason body =>
      if 400 ≤ status ∧ status < 600 then
        request_failure_result c data debugLog (http_error_message status reason c.endpoint)
      else if hasKey body "errorCode" && pyEqInt (dget body "errorCode") 0 then
        { result := .ok body, effects := { sent := [data], logs := [debugLog] } }
      else
        { result := .error (.jsonActionApiError (api_error_message action body)
            (dget body "errorCode") (dget body "errorMessage") action body)
          effects := { sent := [data], logs := [debugLog] } }

/-- `JsonActionClient.post_json`: post the data over the persistent
session and handle the outcome. -/
def post_json (transport : Transport) (c : JsonActionClient) (data : JValue) : PostResult :=
  post_json_handle c data (transport data)

/-- Result of `login` / `logout`: the raised exception if any, the
client state after the call, and the effects. -/
structure StepResult where
  result : Except Err Unit
  client : JsonActionClient
  effects : Effects
deriving Repr

/-- The `create_session` request dict built by `login`: `params` holds
`username`/`password` only when both are truthy (Python `if username and
password`), always holds `idleConnectionTimeoutSeconds = 30`, and the
top level always carries `api`, `action`, `params` and `debug`. -/
def create_session_request (username password : JValue) : JValue :=
  .obj [("api", .str "admin"), ("action", .str "createSession"),
        ("params", .obj
          ((if truthy username && truthy password then
              [("username", username), ("password", password)]
            else []) ++
           [("idleConnectionTimeoutSeconds", .int 30)])),
        ("debug", .str "max")]

/-- `JsonActionClient.login`: post the `createSession` request; on a
successful response store `response['authToken']` (a dict subscript, so
a `KeyError` is raised when the key is absent and the token is left
unchanged); any exception from `post_json` propagates unchanged. -/
def login (transport : Transport) (c : JsonActionClient)
    (username password : JValue) : StepResult :=
  let pr := post_json transport c (create_session_request username password)
  match pr.result with
  | .error e => { result := .error e, client := c, effects := pr.effects }
  | .ok response =>
      match dget? response "authToken" with
      | none => { result := .error (.keyError "authToken"), client := c, effects := pr.effects }
      | some tok =>
          { result := .ok (), client := { c with auth_token := tok }, effects := pr.effects }

/-- The `delete_session` request dict built by `logout`. -/
def delete_session_request (token : JValue) : JValue :=
  .obj [("api", .str "admin"), ("action", .str "deleteSession"), ("authToken", token)]

/-- `JsonActionClient.logout`: post the `deleteSession` request carrying
the currently stored token; exceptions from `post_json` propagate
unchanged; the stored token is never modified. -/
def logout (transport : Transport) (c : JsonActionClient) : StepResult :=
  let pr := post_json transport c (delete_session_request c.auth_token)
  match pr.result with
  | .error e => { result := .error e, client := c, effects := pr.effects }
  | .ok _ => { result := .ok (), client := c, effects := pr.effects }

/-- `JsonActionClient.__enter__`: raise
`RuntimeError("Must call login() before using context manager.")` when
the stored token is falsy, otherwise return the client itself.  No
request is posted and nothing is logged either way. -/
def enter (c : JsonActionClient) : Except Err JsonActionClient × Effects :=
  if truthy c.auth_token then
    (.ok c, { sent := [], logs := [] })
  else
    (.error (.runtimeError "Must call login() before using context manager."),
     { sent := [], logs := [] })

/-- Result of `__exit__`: the value returned to the runtime (`True`
would suppress a pending scope-body exception; the method always returns
`False`), the client state and the effects. -/
structure ExitResult where
  returned : Bool
  client : JsonActionClient
  effects : Effects
deriving Repr

/-- `JsonActionClient.__exit__`: when the stored token is truthy,
attempt `logout` once, logging any exception it raises at warning
severity (`f"Failed to log out: ..."`) instead of re-raising; always
return `False`. -/
def exit_fn (transport : Transport) (c : JsonActionClient) : ExitResult :=
  if truthy c.auth_token then
    let lr := logout transport c
    match lr.result with
    | .ok _ => { returned := false, client := lr.client, effects := lr.effects }
    | .error e =>
        { returned := false
          client := lr.client
          effects :=
            { sent := lr.effects.sent
              logs := lr.effects.logs ++
                [(LogLevel.warning, "Failed to log out: " ++ errStr e)] } }
  else
    { returned := false, client := c, effects := { sent := [], logs := [] } }

/-- Execution of `with client: body` by the Python runtime: `__enter__`
first (its exception aborts the block); the body runs on the entered
client and may mutate it and raise; `__exit__` then runs on the mutated
client, and a body exception is suppressed exactly when `__exit__`
returns a truthy value. -/
def withScope (transport : Transport) (c : JsonActionClient)
    (body : JsonActionClient → Except Err Unit × JsonActionClient) :
    Except Err Unit × JsonActionClient × Effects :=
  match enter c with
  | (.error e, eff) => (.error e, c, eff)
  | (.ok c1, _) =>
      let r := body c1
      let ex := exit_fn transport r.2
      let final : Except Err Unit :=
        match r.1 with
        | .ok _ => .ok ()
        | .error e => if ex.returned then .ok () else .error e
      (final, ex.client, ex.effects)

/-! ## Concrete transports and clients used by witnesses and
counterexamples -/

/-- A transport whose server accepts the action and reports
`errorCode = 0`. -/
def listOkTransport : Transport :=
  fun _ => .response 200 "OK"
    (.obj [("errorCode", .int 0), ("databases", .obj [])])

/-- A transport whose TLS handshake fails:
`requests.exceptions.SSLError`. -/
def tlsFailTransport : Transport :=
  fun _ => .sslError "certificate verify failed"

/-- A server whose response carries `errorCode: false` (JSON `false`,
Python `False`). -/
def falseErrorCodeTransport : Transport :=
  fun _ => .response 200 "OK" (.obj [("errorCode", .bool false)])

/-- A server whose response has no `errorCode` at all. -/
def noErrorCodeTransport : Transport :=
  fun _ => .response 200 "OK" (.obj [("status", .str "fine")])

/-- A client holding a stored token, as left by a successful login. -/
def tokClient : JsonActionClient :=
  { endpoint := "http://127.0.0.1:8080/api", auth_token := .str "abc123",
    description := .null }

/-- A transport for which every post fails with a refused
connection. -/
def downTransport : Transport :=
  fun _ => .connectionError "connection refused"

/-- A transport that answers `createSession` with `errorCode: 0` and an
auth token — the spec's simulated login response. -/
def loginOkTransport : Transport :=
  fun _ => .response 200 "OK"
    (.obj [("errorCode", .int 0), ("authToken", .str "abc123")])

/-- A transport that accepts the `deleteSession` action. -/
def logoutOkTransport : Transport :=
  fun _ => .response 200 "OK" (.obj [("errorCode", .int 0)])

/-! ## Helper lemmas -/

/-- Whatever the outcome, `post_json`'s handler records exactly one
posted request: the given body. -/
theorem post_json_handle_sent (c : JsonActionClient) (data : JValue) (o : HttpOutcome) :
    (post_json_handle c data o).effects.sent = [data] := by
  cases o with
  | connectionError cause => rfl
  | sslError cause => rfl
  | connectTimeout cause => rfl
  | readTimeout cause => rfl
  | otherRequestError cause => rfl
  | response status reason body =>
      unfold post_json_handle
      dsimp only
      split
      · rfl
      · split <;> rfl

/-- `post_json` posts exactly the given body, once. -/
theorem post_json_sent (transport : Transport) (c : JsonActionClient) (data : JValue) :
    (post_json transport c data).effects.sent = [data] :=
  post_json_handle_sent c data (transport data)

/-- On a completed HTTP exchange whose status `raise_for_status` accepts,
`post_json`'s result is decided by the `errorCode` test. -/
theorem post_json_response_result (transport : Transport) (c : JsonActionClient)
    (data : JValue) (status : Nat) (reason : String) (body : JValue)
    (ht : transport data = .response status reason body)
    (hs : ¬(400 ≤ status ∧ status < 600)) :
    (post_json transport c data).result =
      (if hasKey body "errorCode" && pyEqInt (dget body "errorCode") 0 then
        .ok body
      else
        .error (.jsonActionApiError
          (api_error_message (dgetD data "action" (.str "unknown")) body)
          (dget body "errorCode") (dget body "errorMessage")
          (dgetD data "action" (.str "unknown")) body)) := by
  unfold post_json
  rw [ht]
  unfold post_json_handle
  dsimp only
  rw [if_neg hs]
  cases hb : (hasKey body "errorCode" && pyEqInt (dget body "errorCode") 0) <;> simp [hb]

/-- The Python comparison `v == 0` over the modelled values holds exactly
for the integer `0` and the boolean `False`. -/
theorem pyEqInt_zero_iff (v : JValue) :
    pyEqInt v 0 = true ↔ v = .int 0 ∨ v = .bool false := by
  cases v with
  | null => simp [pyEqInt]
  | bool b => cases b <;> simp [pyEqInt]
  | int n => simp [pyEqInt]
  | str s => simp [pyEqInt]
  | obj fields => simp [pyEqInt]

/-- A key that is not `in` the dict is read back as `None` by `.get`. -/
theorem dget_of_hasKey_false (j : JValue) (k : String) (h : hasKey j k = false) :
    dget j k = .null := by
  unfold dget dgetD
  unfold hasKey at h
  cases hk : dget? j k with
  | none => rfl
  | some v => rw [hk] at h; simp at h

/-- `logout`'s effects are exactly those of its single `post_json` call. -/
theorem logout_effects (transport : Transport) (c : JsonActionClient) :
    (logout transport c).effects =
      (post_json transport c (delete_session_request c.auth_token)).effects := by
  unfold logout
  dsimp only
  split <;> rfl

/-- `__exit__` always returns `False`. -/
theorem exit_fn_returned (transport : Transport) (c : JsonActionClient) :
    (exit_fn transport c).returned = false := by
  unfold exit_fn
  dsimp only
  split
  · split <;> rfl
  · rfl

/-- `login` after a failed `post_json`: the exception propagates and the
client is unchanged. -/
theorem login_of_post_error (transport : Transport) (c : JsonActionClient)
    (u p : JValue) (e : Err)
    (h : (post_json transport c (create_session_request u p)).result = .error e) :
    login transport c u p =
      { result := .error e, client := c,
        effects := (post_json transport c (create_session_request u p)).effects } := by
  unfold login
  dsimp only
  rw [h]

/-- `login` after a successful `post_json` whose response lacks
`authToken`: `KeyError` and an unchanged client. -/
theorem login_of_no_token (transport : Transport) (c : JsonActionClient)
    (u p : JValue) (r : JValue)
    (hr : (post_json transport c (create_session_request u p)).result = .ok r)
    (ht : dget? r "authToken" = none) :
    login transport c u p =
      { result := .error (.keyError "authToken"), client := c,
        effects := (post_json transport c (create_session_request u p)).effects } := by
  unfold login
  dsimp only
  rw [hr]
  dsimp only
  rw [ht]

/-- `login` after a successful `post_json` whose response carries
`authToken`: success, with the token stored. -/
theorem login_of_token (transport : Transport) (c : JsonActionClient)
    (u p : JValue) (r tok : JValue)
    (hr : (post_json transport c (create_session_request u p)).result = .ok r)
    (ht : dget? r "authToken" = some tok) :
    login transport c u p =
      { result := .ok (), client := { c with auth_token := tok },
        effects := (post_json transport c (create_session_request u p)).effects } := by
  unfold login
  dsimp only
  rw [hr]
  dsimp only
  rw [ht]

/-! ## Claim theorems -/

/-- Claim C1: on a well-formed HTTP response whose body parses as a JSON
object, `post_json` returns the full parsed response unchanged exactly
when the body contains an `errorCode` key whose value compares equal to
`0` (the comparison performed by the code, Python `==`); otherwise it
raises a `JsonActionApiError` whose message embeds the action name, the
error code and the error message, and which carries the error code, the
error message, the action name read from the request, and the full raw
parsed response. -/
theorem c1_post_json_errorcode_dichotomy (transport : Transport) (c : JsonActionClient)
    (data : JValue) (status : Nat) (reason : String) (fields : List (String × JValue))
    (ht : transport data = .response status reason (.obj fields))
    (hs : ¬(400 ≤ status ∧ status < 600)) :
    ((post_json transport c data).result = .ok (.obj fields) ↔
      hasKey (.obj fields) "errorCode" = true ∧
        pyEqInt (dget (.obj fields) "errorCode") 0 = true) ∧
    (¬(hasKey (.obj fields) "errorCode" = true ∧
        pyEqInt (dget (.obj fields) "errorCode") 0 = true) →
      (post_json transport c data).result = .error (.jsonActionApiError
        ("JSON Action error for '" ++ pyStr (dgetD data "action" (.str "unknown")) ++
          "', errorCode: " ++ pyStr (dget (.obj fields) "errorCode") ++
          ", errorMessage: " ++ pyStr (dget (.obj fields) "errorMessage"))
        (dget (.obj fields) "errorCode") (dget (.obj fields) "errorMessage")
        (dgetD data "action" (.str "unknown")) (.obj fields))) := by
  have h := post_json_response_result transport c data status reason (.obj fields) ht hs
  by_cases hcond : (hasKey (.obj fields) "errorCode" &&
      pyEqInt (dget (.obj fields) "errorCode") 0) = true
  · rw [h, if_pos hcond]
    rw [Bool.and_eq_true] at hcond
    exact ⟨⟨fun _ => hcond, fun _ => rfl⟩, fun hn => absurd hcond hn⟩
  · rw [h, if_neg hcond]
    rw [Bool.and_eq_true] at hcond
    refine ⟨⟨fun hok => absurd hok (by simp), fun hc => absurd hc hcond⟩, fun _ => ?_⟩
    rfl

/-- Witness for C1 at a concrete success response. -/
theorem c1_witness :
    (post_json listOkTransport (mkClient "http://127.0.0.1:8080/api" .null)
      (.obj [("api", .str "db"), ("action", .str "listDatabases"),
             ("params", .obj []), ("authToken", .str "t")])).result
      = .ok (.obj [("errorCode", .int 0), ("databases", .obj [])]) :=
  (c1_post_json_errorcode_dichotomy listOkTransport
    (mkClient "http://127.0.0.1:8080/api" .null)
    (.obj [("api", .str "db"), ("action", .str "listDatabases"),
           ("params", .obj []), ("authToken", .str "t")])
    200 "OK" [("errorCode", .int 0), ("databases", .obj [])]
    rfl (by decide)).1.mpr ⟨rfl, rfl⟩

/-- Claim C2 (code bug): a TLS handshake failure raises
`requests.exceptions.SSLError`, which is a subclass of
`requests.exceptions.ConnectionError`, so the first `except` arm of
`post_json` catches it and raises `JsonActionConnectionError` — not the
base `JsonActionError` the claim (and the code's own comment on the
second `except` arm) assigns to TLS failures. -/
theorem c2_tls_failure_yields_connectionerror :
    (post_json tlsFailTransport (mkClient "https://127.0.0.1:8444/api" .null)
      (.obj [("api", .str "admin"), ("action", .str "createSession"),
             ("params", .obj []), ("debug", .str "max")])).result
      = .error (.jsonActionConnectionError
          "Server connection failed: certificate verify failed"
          "https://127.0.0.1:8444/api" "certificate verify failed") := rfl

/-- Counterexample to claim C3 as stated: on a response whose
`errorCode` is the boolean `False`, `post_json` *returns the response as
a success* (Python evaluates `False == 0` to `True`), instead of
treating every non-`0` value as failure. -/
theorem c3_counterexample :
    (post_json falseErrorCodeTransport (mkClient "http://127.0.0.1:8080/api" .null)
      (.obj [("api", .str "db"), ("action", .str "listDatabases"),
             ("params", .obj [])])).result
      = .ok (.obj [("errorCode", .bool false)]) := rfl

/-- Claim C3 (amended): success requires an `errorCode` key whose value
compares equal to `0` under Python `==` — which holds exactly for the
integer `0` and the boolean `False` (`bool` being an `int` subtype);
every other value (including `None`), and an entirely absent
`errorCode` key, takes the `JsonActionApiError` path, with the carried
`errorCode` equal to `None` when the key is absent. -/
theorem c3_success_is_python_zero (transport : Transport) (c : JsonActionClient)
    (data : JValue) (status : Nat) (reason : String) (fields : List (String × JValue))
    (ht : transport data = .response status reason (.obj fields))
    (hs : ¬(400 ≤ status ∧ status < 600)) :
    ((post_json transport c data).result = .ok (.obj fields) ↔
      hasKey (.obj fields) "errorCode" = true ∧
        (dget (.obj fields) "errorCode" = .int 0 ∨
         dget (.obj fields) "errorCode" = .bool false)) ∧
    (hasKey (.obj fields) "errorCode" = false →
      (post_json transport c data).result = .error (.jsonActionApiError
        (api_error_message (dgetD data "action" (.str "unknown")) (.obj fields))
        .null (dget (.obj fields) "errorMessage")
        (dgetD data "action" (.str "unknown")) (.obj fields))) := by
  have h := post_json_response_result transport c data status reason (.obj fields) ht hs
  constructor
  · by_cases hcond : (hasKey (.obj fields) "errorCode" &&
        pyEqInt (dget (.obj fields) "errorCode") 0) = true
    · rw [h, if_pos hcond]
      rw [Bool.and_eq_true] at hcond
      rw [pyEqInt_zero_iff] at hcond
      exact ⟨fun _ => hcond, fun _ => rfl⟩
    · rw [h, if_neg hcond]
      rw [Bool.and_eq_true] at hcond
      refine ⟨fun hok => absurd hok (by simp), fun hc => ?_⟩
      rw [pyEqInt_zero_iff (dget (.obj fields) "errorCode")] at hcond
      exact absurd hc hcond
  · intro hk
    have hz : dget (.obj fields) "errorCode" = .null :=
      dget_of_hasKey_false (.obj fields) "errorCode" hk
    have hcond : (hasKey (.obj fields) "errorCode" &&
        pyEqInt (dget (.obj fields) "errorCode") 0) = false := by
      rw [hk, Bool.false_and]
    rw [h, if_neg (by rw [hcond]; simp), hz]

/-- Witness for the amended C3 at a concrete response missing
`errorCode`. -/
theorem c3_witness :
    (post_json noErrorCodeTransport (mkClient "http://127.0.0.1:8080/api" .null)
      (.obj [("api", .str "db"), ("action", .str "listDatabases"),
             ("params", .obj [])])).result
      = .error (.jsonActionApiError
          (api_error_message (.str "listDatabases") (.obj [("status", .str "fine")]))
          .null .null (.str "listDatabases") (.obj [("status", .str "fine")])) :=
  (c3_success_is_python_zero noErrorCodeTransport
    (mkClient "http://127.0.0.1:8080/api" .null)
    (.obj [("api", .str "db"), ("action", .str "listDatabases"), ("params", .obj [])])
    200 "OK" [("status", .str "fine")] rfl (by decide)).2 rfl

/-- Claim C4: with a (truthy) token stored, `__exit__` returns `False`,
attempts the logout exactly once (it posts exactly the one
`deleteSession` request), appends a warning-severity log entry and
suppresses the exception when that logout fails, and the execution of
the whole `with` block yields exactly the scope body's own outcome —
a body exception is never swallowed, converted or masked. -/
theorem c4_exit_logout_and_propagation (transport : Transport) (c : JsonActionClient)
    (h : truthy c.auth_token = true) :
    (exit_fn transport c).returned = false ∧
    (exit_fn transport c).effects.sent = [delete_session_request c.auth_token] ∧
    (∀ e, (post_json transport c (delete_session_request c.auth_token)).result = .error e →
      (exit_fn transport c).effects.logs =
        (post_json transport c (delete_session_request c.auth_token)).effects.logs ++
          [(LogLevel.warning, "Failed to log out: " ++ errStr e)]) ∧
    (∀ body : JsonActionClient → Except Err Unit × JsonActionClient,
      (withScope transport c body).1 = (body c).1) := by
  refine ⟨exit_fn_returned transport c, ?_, ?_, ?_⟩
  · unfold exit_fn
    rw [if_pos h]
    dsimp only
    cases hr : (logout transport c).result with
    | ok u =>
        dsimp only
        rw [show (logout transport c).effects =
              (post_json transport c (delete_session_request c.auth_token)).effects from
            logout_effects transport c]
        exact post_json_sent transport c (delete_session_request c.auth_token)
    | error e =>
        dsimp only
        rw [show (logout transport c).effects =
              (post_json transport c (delete_session_request c.auth_token)).effects from
            logout_effects transport c]
        exact post_json_sent transport c (delete_session_request c.auth_token)
  · intro e he
    unfold exit_fn
    rw [if_pos h]
    dsimp only
    have hr : (logout transport c).result = .error e := by
      unfold logout
      dsimp only
      rw [he]
    rw [hr]
    dsimp only
    rw [logout_effects transport c]
  · intro body
    unfold withScope
    unfold enter
    rw [if_pos h]
    dsimp only
    cases hb : (body c).1 with
    | ok u => cases u; rfl
    | error e => rw [exit_fn_returned transport (body c).2]; rfl

/-- Witness for C4: a scope exit over a transport whose logout fails. -/
theorem c4_witness :
    (exit_fn downTransport tokClient).returned = false ∧
    (exit_fn downTransport tokClient).effects.sent =
      [delete_session_request (.str "abc123")] ∧
    (exit_fn downTransport tokClient).effects.logs =
      (post_json downTransport tokClient (delete_session_request (.str "abc123"))).effects.logs ++
        [(LogLevel.warning, "Failed to log out: Server connection failed: connection refused")] := by
  have h := c4_exit_logout_and_propagation downTransport tokClient rfl
  exact ⟨h.1, h.2.1, h.2.2.1
    (.jsonActionConnectionError "Server connection failed: connection refused"
      "http://127.0.0.1:8080/api" "connection refused") rfl⟩

/-- Counterexample to claim C5 as stated: entering the scope on a fresh
client (no login) raises the built-in `RuntimeError`, and that exception
is *not* an instance of the module's `JsonActionError` base class — so
the raised error does not derive from the spec's `ActionError` kind. -/
theorem c5_counterexample :
    (enter (mkClient "http://127.0.0.1:8080/api" .null)).1 =
      .error (.runtimeError "Must call login() before using context manager.") ∧
    Err.isJsonActionError
      (.runtimeError "Must call login() before using context manager.") = false ∧
    (enter (mkClient "http://127.0.0.1:8080/api" .null)).2.sent = [] :=
  ⟨rfl, rfl, rfl⟩

/-- Claim C5 (amended): entering the scope with a falsy stored token
fails with `RuntimeError` — an exception that does not derive from the
`JsonActionError` base kind — before any network access occurs; with a
truthy token stored, entry succeeds and returns the client itself.  No
request is posted in either case. -/
theorem c5_enter_precondition (c : JsonActionClient) :
    (truthy c.auth_token = false →
      (enter c).1 = .error (.runtimeError "Must call login() before using context manager.") ∧
      ∀ e, (enter c).1 = .error e → Err.isJsonActionError e = false) ∧
    (truthy c.auth_token = true → (enter c).1 = .ok c) ∧
    (enter c).2.sent = [] := by
  refine ⟨fun hf => ?_, fun ht => ?_, ?_⟩
  · unfold enter
    rw [if_neg (by rw [hf]; simp)]
    refine ⟨rfl, fun e he => ?_⟩
    cases he
    rfl
  · unfold enter
    rw [if_pos ht]
  · unfold enter
    split <;> rfl

/-- Witness for the amended C5: a fresh client is refused, a logged-in
client is admitted. -/
theorem c5_witness :
    (enter (mkClient "https://127.0.0.1:8444/api" .null)).1 =
      .error (.runtimeError "Must call login() before using context manager.") ∧
    (enter tokClient).1 = .ok tokClient :=
  ⟨((c5_enter_precondition (mkClient "https://127.0.0.1:8444/api" .null)).1 rfl).1,
   (c5_enter_precondition tokClient).2.1 rfl⟩

/-- Claim C6: for every `login` call — whatever the credential values,
including `None` for either or both — the request has `api = "admin"`
and `action = "createSession"`; its `params` are exactly `username`,
`password` and `idleConnectionTimeoutSeconds = 30` when both credentials
are truthy, and exactly `idleConnectionTimeoutSeconds = 30` otherwise;
and truthiness is exactly non-emptiness for a string credential and
never holds for an absent (`None`) one. -/
theorem c6_login_request_params (u p : JValue) :
    dget (create_session_request u p) "api" = .str "admin" ∧
    dget (create_session_request u p) "action" = .str "createSession" ∧
    (truthy u = true → truthy p = true →
      dget (create_session_request u p) "params" =
        .obj [("username", u), ("password", p),
              ("idleConnectionTimeoutSeconds", .int 30)]) ∧
    (¬(truthy u = true ∧ truthy p = true) →
      dget (create_session_request u p) "params" =
        .obj [("idleConnectionTimeoutSeconds", .int 30)]) ∧
    (∀ s : String, truthy (.str s) = true ↔ s ≠ "") ∧
    truthy .null = false := by
  refine ⟨rfl, rfl, fun hu hp => ?_, fun hn => ?_, fun s => ?_, rfl⟩
  · have hc : (truthy u && truthy p) = true := by rw [hu, hp]; rfl
    unfold create_session_request
    rw [if_pos hc]
    rfl
  · have hc : ¬((truthy u && truthy p) = true) := by
      rw [Bool.and_eq_true]
      exact hn
    unfold create_session_request
    rw [if_neg hc]
    rfl
  · simp [truthy]

/-- Witness for C6: credential login, a missing or empty credential on
either side, and the certificate-based `login()` call with no
credentials at all. -/
theorem c6_witness :
    dget (create_session_request (.str "admin") (.str "ADMIN")) "params" =
      .obj [("username", .str "admin"), ("password", .str "ADMIN"),
            ("idleConnectionTimeoutSeconds", .int 30)] ∧
    dget (create_session_request (.str "admin") (.str "")) "params" =
      .obj [("idleConnectionTimeoutSeconds", .int 30)] ∧
    dget (create_session_request .null (.str "ADMIN")) "params" =
      .obj [("idleConnectionTimeoutSeconds", .int 30)] ∧
    dget (create_session_request .null .null) "params" =
      .obj [("idleConnectionTimeoutSeconds", .int 30)] ∧
    dget (create_session_request .null .null) "api" = .str "admin" ∧
    dget (create_session_request .null .null) "action" = .str "createSession" :=
  ⟨(c6_login_request_params (.str "admin") (.str "ADMIN")).2.2.1 rfl rfl,
   (c6_login_request_params (.str "admin") (.str "")).2.2.2.1 (by decide),
   (c6_login_request_params .null (.str "ADMIN")).2.2.2.1 (by decide),
   (c6_login_request_params .null .null).2.2.2.1 (by decide),
   (c6_login_request_params .null .null).1,
   (c6_login_request_params .null .null).2.1⟩

/-- Claim C7: when `post_json` succeeds, `login` stores the response's
`authToken` value on the client and returns normally; when the
successful response lacks an `authToken` key, `login` raises `KeyError`;
any exception from `post_json` propagates unchanged. -/
theorem c7_login_token_extraction (transport : Transport) (c : JsonActionClient)
    (u p : JValue) :
    (∀ r, (post_json transport c (create_session_request u p)).result = .ok r →
      (∀ tok, dget? r "authToken" = some tok →
        (login transport c u p).result = .ok () ∧
        (login transport c u p).client.auth_token = tok) ∧
      (dget? r "authToken" = none →
        (login transport c u p).result = .error (.keyError "authToken"))) ∧
    (∀ e, (post_json transport c (create_session_request u p)).result = .error e →
      (login transport c u p).result = .error e) := by
  constructor
  · intro r hr
    constructor
    · intro tok htok
      rw [login_of_token transport c u p r tok hr htok]
      exact ⟨rfl, rfl⟩
    · intro hnone
      rw [login_of_no_token transport c u p r hr hnone]
  · intro e he
    rw [login_of_post_error transport c u p e he]

/-- Witness for C7: after a simulated successful login the stored token
is exactly the response's `authToken`. -/
theorem c7_witness :
    (login loginOkTransport (mkClient "http://127.0.0.1:8080/api" .null)
      (.str "admin") (.str "ADMIN")).result = .ok () ∧
    (login loginOkTransport (mkClient "http://127.0.0.1:8080/api" .null)
      (.str "admin") (.str "ADMIN")).client.auth_token = .str "abc123" :=
  ((c7_login_token_extraction loginOkTransport (mkClient "http://127.0.0.1:8080/api" .null)
      (.str "admin") (.str "ADMIN")).1
    (.obj [("errorCode", .int 0), ("authToken", .str "abc123")]) rfl).1
    (.str "abc123") rfl

/-- Claim C8: `logout` posts exactly one request, carrying
`api = "admin"`, `action = "deleteSession"` and the currently stored
token as `authToken`; it propagates `post_json` exceptions unchanged;
and it leaves the client (in particular the stored token) unchanged. -/
theorem c8_logout_request_and_frame (transport : Transport) (c : JsonActionClient) :
    (logout transport c).effects.sent = [delete_session_request c.auth_token] ∧
    dget (delete_session_request c.auth_token) "api" = .str "admin" ∧
    dget (delete_session_request c.auth_token) "action" = .str "deleteSession" ∧
    dget (delete_session_request c.auth_token) "authToken" = c.auth_token ∧
    (∀ e, (post_json transport c (delete_session_request c.auth_token)).result = .error e →
      (logout transport c).result = .error e) ∧
    (logout transport c).client = c := by
  refine ⟨?_, rfl, rfl, rfl, fun e he => ?_, ?_⟩
  · rw [logout_effects transport c]
    exact post_json_sent transport c (delete_session_request c.auth_token)
  · unfold logout
    dsimp only
    rw [he]
  · unfold logout
    dsimp only
    split <;> rfl

/-- Witness for C8: a failing and a successful logout, token kept. -/
theorem c8_witness :
    (logout logoutOkTransport tokClient).client = tokClient ∧
    (logout downTransport tokClient).result =
      .error (.jsonActionConnectionError "Server connection failed: connection refused"
        "http://127.0.0.1:8080/api" "connection refused") :=
  ⟨(c8_logout_request_and_frame logoutOkTransport tokClient).2.2.2.2.2,
   (c8_logout_request_and_frame downTransport tokClient).2.2.2.2.1
     (.jsonActionConnectionError "Server connection failed: connection refused"
       "http://127.0.0.1:8080/api" "connection refused") rfl⟩

/-- Claim C9 (implicit): every request built by `login` carries a
top-level `debug` field set to the string `"max"`, whatever the
credentials. -/
theorem c9_login_debug_max (u p : JValue) :
    dget (create_session_request u p) "debug" = .str "max" := rfl

/-- Claim C10 (implicit, error atomicity): whenever `login` raises —
from `post_json` or from the missing `authToken` subscript — the client
is returned unchanged; the token is assigned only after both steps
succeed. -/
theorem c10_login_error_leaves_client (transport : Transport) (c : JsonActionClient)
    (u p : JValue) (e : Err)
    (h : (login transport c u p).result = .error e) :
    (login transport c u p).client = c := by
  rcases hpj : (post_json transport c (create_session_request u p)).result with e' | r
  · rw [login_of_post_error transport c u p e' hpj]
  · rcases ht : dget? r "authToken" with _ | tok
    · rw [login_of_no_token transport c u p r hpj ht]
    · exfalso
      rw [login_of_token transport c u p r tok hpj ht] at h
      exact Except.noConfusion (show Except.ok () = Except.error e from h)

/-- Witness for C10: a login over a refused connection leaves the fresh
client untouched. -/
theorem c10_witness :
    (login downTransport (mkClient "http://127.0.0.1:8080/api" .null)
      (.str "admin") (.str "ADMIN")).client = mkClient "http://127.0.0.1:8080/api" .null :=
  c10_login_error_leaves_client downTransport (mkClient "http://127.0.0.1:8080/api" .null)
    (.str "admin") (.str "ADMIN")
    (.jsonActionConnectionError "Server connection failed: connection refused"
      "http://127.0.0.1:8080/api" "connection refused") rfl
